import Mathlib

/-
Verification of src/app/lib/pdf2img.ts.

The TypeScript module is embedded shallowly. Browser collaborators
(dynamic module import, CDN script elements, the PDF engine, canvas and
its blob encoder) are modelled by an explicit environment `Env` that
fixes the outcome of each collaborator interaction; the module-level
mutable variables (`pdfjsLib`, `loadPromise`, `isLoading`) together with
the `window.pdfjsLib` global binding and a count of script elements
appended so far form the threaded state `GState`.  Each call returns an
`Outcome` (a returned result value, an indefinite suspension when no
code path ever settles the awaited promise, or a propagated fault),
the state after the call, and the list of observable acquisition
events (script injections, module-import attempts) it emitted.
-/

namespace Pdf2Img

/-- Fate of one injected script element: its load event fires (and the
executed script does or does not install the `window.pdfjsLib` global
binding), or its error event fires. -/
inductive ScriptOutcome where
  | loads (setsGlobal : Bool)
  | fails
deriving DecidableEq

/-- How the engine was obtained: from the dynamic module import or from
the global binding installed by a CDN script. -/
inductive Engine where
  | fromModule
  | fromGlobal
deriving DecidableEq

/-- Collaborator behaviour for one run.  `script n` is the fate of the
n-th script element appended to the document head process-wide;
`moduleImport` is the fate of the dynamic module import;
the remaining flags are the fates of the pipeline stages
(file read, document parse, page fetch, render, 2-D context
acquisition, blob encoding). -/
structure Env where
  windowExists : Bool
  script : Nat → ScriptOutcome
  moduleImport : Except String Unit
  arrayBufferOk : Bool
  parseOk : Bool
  getPageOk : Bool
  renderOk : Bool
  contextOk : Bool
  blobOk : Bool

/-- What awaiting the memoized `loadPromise` yields: a resolution with
an engine, a rejection with an error value, or no settlement ever. -/
inductive LoadRes where
  | resolved (e : Engine)
  | rejected (msg : String)
  | hung
deriving DecidableEq

/-- The module-level mutable state of pdf2img.ts (`pdfjsLib`,
`loadPromise`, `isLoading`), the `window.pdfjsLib` global binding, and
the number of script elements appended so far. -/
structure GState where
  pdfjsLibCache : Option Engine
  loadPromise : Option LoadRes
  isLoading : Bool
  globalLib : Bool
  injectCount : Nat
deriving DecidableEq

/-- Observable acquisition events: a script element appended with the
given src URL, or a dynamic module-import attempt. -/
inductive Event where
  | inject (src : String)
  | importMod
deriving DecidableEq

/-- The produced output file: its name and media type. -/
structure JsFile where
  name : String
  type : String
deriving DecidableEq

/-- The argument of the entry points: `null`, a non-File object (both
fail the `file instanceof File` test), or a genuine File with a name
and a declared media type. -/
inductive FileInput where
  | nullInput
  | nonFileObject
  | file (f : JsFile)
deriving DecidableEq

/-- PdfConversionResult from pdf2img.ts: `imageUrl` (empty on failure),
optional output file, optional error string. -/
structure PdfConversionResult where
  imageUrl : String
  file : Option JsFile
  error : Option String
deriving DecidableEq

/-- Fate of one entry-point call: the promise resolves with a result
value, never settles, or a fault escapes to the caller. -/
inductive Outcome where
  | ret (r : PdfConversionResult)
  | hang
  | thrown (msg : String)
deriving DecidableEq

/-- URL of the pinned jsdelivr CDN bundle (source lines 49 and 116). -/
def jsdelivrPdfUrl : String :=
  "https://cdn.jsdelivr.net/npm/pdfjs-dist@3.11.174/build/pdf.min.js"

/-- URL of the pinned cloudflare CDN bundle (source line 281). -/
def cloudflarePdfUrl : String :=
  "https://cdnjs.cloudflare.com/ajax/libs/pdf.js/3.11.174/pdf.min.js"

/-- Model of URL.createObjectURL: some non-empty blob URL. -/
def createObjectURL : String := "blob:local-object-url"

/-- Whether a character sequence ends in ".pdf" up to ASCII case: the
last four characters, lower-cased, are `.`, `p`, `d`, `f`. -/
def pdfSuffix (cs : List Char) : Bool :=
  ((cs.reverse.take 4).map Char.toLower) == ['f', 'd', 'p', '.']

/-- Embedding of `name.replace(/\.pdf$/i, "")` (source lines 219 and
354): the pattern is anchored at the end, so it strips one trailing
".pdf" suffix, matched case-insensitively, and otherwise leaves the
name unchanged. -/
def stripPdfSuffix (s : String) : String :=
  if pdfSuffix s.data then String.mk (s.data.take (s.data.length - 4)) else s

/-- A failure result: empty imageUrl, no file, error set. -/
def mkFailure (msg : String) : PdfConversionResult :=
  { imageUrl := "", file := none, error := some msg }

/-- A success result as built in the toBlob callbacks (source lines
218-230 and 353-362): object URL, PNG file with the given name, no
error. -/
def mkSuccess (nm : String) : PdfConversionResult :=
  { imageUrl := createObjectURL
    file := some { name := nm, type := "image/png" }
    error := none }

/-- Fresh module state: no cached engine, no load promise, not loading,
no global binding, no scripts appended. -/
def initState : GState :=
  { pdfjsLibCache := none, loadPromise := none, isLoading := false
    globalLib := false, injectCount := 0 }

/-- The PDF classification test of source lines 88-89: declared media
type is application/pdf, or the lower-cased name ends in ".pdf". -/
def isPdfFile (f : JsFile) : Bool :=
  f.type == "application/pdf" || pdfSuffix f.name.data

/-- Embedding of `loadPdfJs` (source lines 11-71).  Returns what
awaiting its promise yields, the state after the call, and the emitted
acquisition events.  Branches, in source order: cached module variable;
memoized `loadPromise`; dynamic module import; on import failure, if a
window exists, a script element is appended whose load handler resolves
only when the global binding is present (lines 50-58) and whose error
handler rejects (line 59); without a window the executor ends without
ever settling the promise. -/
def loadPdfJs (env : Env) (s : GState) : LoadRes × GState × List Event :=
  match s.pdfjsLibCache with
  | some e => (.resolved e, s, [])
  | none =>
    match s.loadPromise with
    | some res => (res, s, [])
    | none =>
      let s := { s with isLoading := true }
      match env.moduleImport with
      | .ok _ =>
        let s := { s with pdfjsLibCache := some .fromModule, isLoading := false
                          loadPromise := some (.resolved .fromModule) }
        (.resolved .fromModule, s, [.importMod])
      | .error _ =>
        if env.windowExists then
          let n := s.injectCount
          let s := { s with injectCount := n + 1 }
          match env.script n with
          | .loads b =>
            if s.globalLib || b then
              let s := { s with globalLib := true, pdfjsLibCache := some .fromGlobal
                                isLoading := false
                                loadPromise := some (.resolved .fromGlobal) }
              (.resolved .fromGlobal, s, [.importMod, .inject jsdelivrPdfUrl])
            else
              (.hung, { s with loadPromise := some .hung },
               [.importMod, .inject jsdelivrPdfUrl])
          | .fails =>
            (.rejected "script load error",
             { s with loadPromise := some (.rejected "script load error") },
             [.importMod, .inject jsdelivrPdfUrl])
        else
          (.hung, { s with loadPromise := some .hung }, [.importMod])

/-- The render pipeline of `convertPdfToImage` once a library handle is
available (source lines 147-243): file read and page fetch and render
faults reach the outer catch of lines 245-260; parse faults, a missing
2-D context, and a null blob produce their dedicated failure results;
otherwise the success result is built with the stripped-and-renamed
output file. -/
def convertPipeline (env : Env) (f : JsFile) : PdfConversionResult :=
  if !env.arrayBufferOk then mkFailure "Failed to convert PDF: arrayBuffer error"
  else if !env.parseOk then
    mkFailure "Failed to parse PDF file. It may be corrupted or password protected."
  else if !env.getPageOk then mkFailure "Failed to convert PDF: getPage error"
  else if !env.contextOk then mkFailure "Canvas context is not available"
  else if !env.renderOk then mkFailure "Failed to convert PDF: render error"
  else if env.blobOk then mkSuccess (stripPdfSuffix f.name ++ ".png")
  else mkFailure "Failed to create image from canvas"

/-- Embedding of the exported `convertPdfToImage` (source lines
74-261).  In source order: input validation; PDF classification; then
the CDN-first acquisition of lines 101-137 (reuse the global binding if
present, otherwise append a script element; its load handler reads the
global binding and dereferences it, so when the binding is absent the
handler faults and the awaited promise never settles; its error handler
rejects, landing in the catch that falls back to `loadPdfJs`); a
rejection of `loadPdfJs` is rethrown at line 135 and caught by the
outer catch; without a window `lib` stays undefined and line 139
returns the dedicated failure. -/
def convertPdfToImage (env : Env) (input : FileInput) (s : GState) :
    Outcome × GState × List Event :=
  match input with
  | .nullInput => (.ret (mkFailure "Invalid file provided"), s, [])
  | .nonFileObject => (.ret (mkFailure "Invalid file provided"), s, [])
  | .file f =>
    if !isPdfFile f then
      (.ret (mkFailure "File is not a PDF"), s, [])
    else if env.windowExists then
      if s.globalLib then
        (.ret (convertPipeline env f), s, [])
      else
        let n := s.injectCount
        let s1 := { s with injectCount := n + 1 }
        match env.script n with
        | .loads b =>
          if s1.globalLib || b then
            (.ret (convertPipeline env f), { s1 with globalLib := true },
             [.inject jsdelivrPdfUrl])
          else
            (.hang, s1, [.inject jsdelivrPdfUrl])
        | .fails =>
          match loadPdfJs env s1 with
          | (.resolved _, s2, ev) =>
            (.ret (convertPipeline env f), s2, .inject jsdelivrPdfUrl :: ev)
          | (.rejected m, s2, ev) =>
            (.ret (mkFailure ("Failed to convert PDF: Failed to load PDF.js: " ++ m)),
             s2, .inject jsdelivrPdfUrl :: ev)
          | (.hung, s2, ev) =>
            (.hang, s2, .inject jsdelivrPdfUrl :: ev)
    else
      (.ret (mkFailure "PDF.js library failed to load"), s, [])

/-- Embedding of `performConversion` (source lines 317-382): requires
the global binding; every pipeline fault up to render lands in the
catch at line 375; a missing 2-D context and a null blob produce their
dedicated failures; a null or non-File argument makes the
`file.arrayBuffer()` call at line 329 fault, also landing in that
catch. -/
def performConversion (env : Env) (input : FileInput) (s : GState) :
    PdfConversionResult :=
  if !s.globalLib then mkFailure "PDF.js not loaded"
  else
    match input with
    | .nullInput => mkFailure "Conversion error: cannot read file"
    | .nonFileObject => mkFailure "Conversion error: cannot read file"
    | .file f =>
      if !env.arrayBufferOk then mkFailure "Conversion error: arrayBuffer error"
      else if !env.parseOk then mkFailure "Conversion error: parse error"
      else if !env.getPageOk then mkFailure "Conversion error: getPage error"
      else if !env.contextOk then mkFailure "Canvas context not available"
      else if !env.renderOk then mkFailure "Conversion error: render error"
      else if env.blobOk then mkSuccess (stripPdfSuffix f.name ++ ".png")
      else mkFailure "Failed to create image"

/-- Embedding of the exported `convertPdfToImageSimple` (source lines
264-315).  Note there is no input validation and no PDF classification:
the function goes straight to acquisition.  Without a window it returns
the dedicated failure; with the global binding present it converts
directly; otherwise it appends a script element whose load handler
dereferences the global binding before converting (so when the executed
script does not install the binding the handler faults and the outer
promise never settles) and whose error handler resolves with the
dedicated failure. -/
def convertPdfToImageSimple (env : Env) (input : FileInput) (s : GState) :
    Outcome × GState × List Event :=
  if !env.windowExists then
    (.ret (mkFailure "Window is not available"), s, [])
  else if s.globalLib then
    (.ret (performConversion env input s), s, [])
  else
    let n := s.injectCount
    let s1 := { s with injectCount := n + 1 }
    match env.script n with
    | .loads b =>
      if s1.globalLib || b then
        let s2 := { s1 with globalLib := true }
        (.ret (performConversion env input s2), s2, [.inject cloudflarePdfUrl])
      else
        (.hang, s1, [.inject cloudflarePdfUrl])
    | .fails =>
      (.ret (mkFailure "Failed to load PDF.js library"), s1,
       [.inject cloudflarePdfUrl])

/-- The synchronous segment of one `convertPdfToImage` call, from entry
to its first suspension point (source lines 79-125): validation and
classification run synchronously; if the global binding is absent a
script element is created and appended before the call suspends on the
script load event.  The global binding can only be installed later, by
a script load event, so a second call interleaved before any load event
runs this same segment against the state left here. -/
def convertFirstPhase (env : Env) (f : JsFile) (s : GState) :
    GState × List Event :=
  if !isPdfFile f then (s, [])
  else if !env.windowExists then (s, [])
  else if s.globalLib then (s, [])
  else ({ s with injectCount := s.injectCount + 1 }, [.inject jsdelivrPdfUrl])

/-- Two `convertPdfToImage` calls issued concurrently: both synchronous
segments run before either script load event fires (cooperative
scheduling: nothing between them installs the global binding). -/
def twoConcurrentConverts (env : Env) (f : JsFile) (s : GState) :
    GState × List Event :=
  let p := convertFirstPhase env f s
  let q := convertFirstPhase env f p.1
  (q.1, p.2 ++ q.2)

/-- Number of script-injection events in a trace. -/
def injections (l : List Event) : Nat :=
  (l.filter fun ev => match ev with | .inject _ => true | _ => false).length

/-- The success shape of the ConversionResult invariant: non-empty
imageUrl, file present, error absent. -/
def isSuccessResult (r : PdfConversionResult) : Prop :=
  r.imageUrl ≠ "" ∧ r.file ≠ none ∧ r.error = none

/-- The failure shape of the ConversionResult invariant: error present,
imageUrl empty, file absent. -/
def isFailureResult (r : PdfConversionResult) : Prop :=
  r.error ≠ none ∧ r.imageUrl = "" ∧ r.file = none

/-- A genuine PDF input, classified by both media type and suffix. -/
def samplePdf : JsFile := { name := "sample.pdf", type := "application/pdf" }

/-- A PDF with an upper-case suffix (spec naming scenario). -/
def reportPdf : JsFile := { name := "report.PDF", type := "application/pdf" }

/-- A non-PDF input: wrong media type and no ".pdf" suffix. -/
def txtFile : JsFile := { name := "notes.txt", type := "text/plain" }

/-- Every collaborator cooperates: scripts load and install the global
binding, the module import succeeds, every pipeline stage succeeds. -/
def happyEnv : Env :=
  { windowExists := true, script := fun _ => .loads true
    moduleImport := .ok (), arrayBufferOk := true, parseOk := true
    getPageOk := true, renderOk := true, contextOk := true, blobOk := true }

/-- Scripts load but never install the global binding; everything else
cooperates. -/
def ghostScriptEnv : Env :=
  { happyEnv with script := fun _ => .loads false }

/-- Everything cooperates except document parsing. -/
def parseFailEnv : Env :=
  { happyEnv with parseOk := false }

/-- Every CDN script errors; the module import succeeds. -/
def cdnDownEnv : Env :=
  { happyEnv with script := fun _ => .fails }

/-- Every acquisition strategy fails: the module import rejects and
every CDN script errors. -/
def allAcqFailEnv : Env :=
  { happyEnv with moduleImport := .error "import failed"
                  script := fun _ => .fails }

/-- The first script element errors, the second loads without
installing the global binding; the module import rejects. -/
def hangEnv : Env :=
  { happyEnv with moduleImport := .error "import failed"
                  script := fun n => if n = 0 then .fails else .loads false }

/-- Loader state after one acquisition in which every strategy failed:
the module cache is still empty but loadPromise records the rejection
(and isLoading was never reset). -/
def poisonedState : GState :=
  { pdfjsLibCache := none, loadPromise := some (.rejected "script load error")
    isLoading := true, globalLib := false, injectCount := 1 }

theorem isSuccessResult_mkSuccess (nm : String) : isSuccessResult (mkSuccess nm) := by
  refine ⟨?_, ?_, rfl⟩
  · show createObjectURL ≠ ""
    decide
  · simp [mkSuccess]

theorem xor_mkSuccess (nm : String) :
    Xor' (isSuccessResult (mkSuccess nm)) (isFailureResult (mkSuccess nm)) :=
  Or.inl ⟨isSuccessResult_mkSuccess nm, by simp [isFailureResult, mkSuccess]⟩

theorem xor_mkFailure (m : String) :
    Xor' (isSuccessResult (mkFailure m)) (isFailureResult (mkFailure m)) :=
  Or.inr ⟨⟨by simp [mkFailure], rfl, rfl⟩, by simp [isSuccessResult, mkFailure]⟩

/-- Every exit of the post-acquisition pipeline of `convertPdfToImage`
is either a failure result or the success result carrying the renamed
output file. -/
theorem convertPipeline_cases (env : Env) (f : JsFile) :
    (∃ m, convertPipeline env f = mkFailure m) ∨
    convertPipeline env f = mkSuccess (stripPdfSuffix f.name ++ ".png") := by
  unfold convertPipeline
  split_ifs <;> first
    | exact Or.inl ⟨_, rfl⟩
    | exact Or.inr rfl

/-- Every exit of `performConversion` is either a failure result or the
success result carrying the renamed output file. -/
theorem performConversion_cases (env : Env) (input : FileInput) (s : GState) :
    (∃ m, performConversion env input s = mkFailure m) ∨
    (∃ f, input = .file f ∧
      performConversion env input s = mkSuccess (stripPdfSuffix f.name ++ ".png")) := by
  cases input with
  | nullInput =>
    unfold performConversion
    split_ifs <;> exact Or.inl ⟨_, rfl⟩
  | nonFileObject =>
    unfold performConversion
    split_ifs <;> exact Or.inl ⟨_, rfl⟩
  | file f =>
    unfold performConversion
    split_ifs <;> first
      | exact Or.inl ⟨_, rfl⟩
      | exact Or.inr ⟨f, rfl, rfl⟩

/-- Case analysis of one `convertPdfToImage` call: the outcome is a
returned failure result, a returned pipeline result for the supplied
file, or an indefinite suspension. -/
theorem convertPdfToImage_outcome (env : Env) (input : FileInput) (s : GState) :
    (∃ m, (convertPdfToImage env input s).1 = .ret (mkFailure m)) ∨
    (∃ f, input = .file f ∧
      (convertPdfToImage env input s).1 = .ret (convertPipeline env f)) ∨
    (convertPdfToImage env input s).1 = .hang := by
  cases input with
  | nullInput => exact .inl ⟨"Invalid file provided", rfl⟩
  | nonFileObject => exact .inl ⟨"Invalid file provided", rfl⟩
  | file f =>
    by_cases hp : isPdfFile f = true
    · by_cases hw : env.windowExists = true
      · by_cases hg : s.globalLib = true
        · exact .inr (.inl ⟨f, rfl, by simp [convertPdfToImage, hp, hw, hg]⟩)
        · rw [Bool.not_eq_true] at hg
          cases hsc : env.script s.injectCount with
          | loads b =>
            cases b with
            | true =>
              exact .inr (.inl ⟨f, rfl, by simp [convertPdfToImage, hp, hw, hg, hsc]⟩)
            | false =>
              exact .inr (.inr (by simp [convertPdfToImage, hp, hw, hg, hsc]))
          | fails =>
            rcases hld : loadPdfJs env
                { s with globalLib := false, injectCount := s.injectCount + 1 }
              with ⟨res, s2, ev⟩
            cases res with
            | resolved e =>
              exact .inr (.inl ⟨f, rfl, by simp [convertPdfToImage, hp, hw, hg, hsc, hld]⟩)
            | rejected m =>
              exact .inl ⟨"Failed to convert PDF: Failed to load PDF.js: " ++ m,
                by simp [convertPdfToImage, hp, hw, hg, hsc, hld]⟩
            | hung =>
              exact .inr (.inr (by simp [convertPdfToImage, hp, hw, hg, hsc, hld]))
      · exact .inl ⟨"PDF.js library failed to load", by simp [convertPdfToImage, hp, hw]⟩
    · exact .inl ⟨"File is not a PDF", by simp [convertPdfToImage, hp]⟩

/-- Case analysis of one `convertPdfToImageSimple` call: the outcome is
a returned failure result, a returned `performConversion` result at
some state, or an indefinite suspension. -/
theorem convertPdfToImageSimple_outcome (env : Env) (input : FileInput) (s : GState) :
    (∃ m, (convertPdfToImageSimple env input s).1 = .ret (mkFailure m)) ∨
    (∃ t, (convertPdfToImageSimple env input s).1 = .ret (performConversion env input t)) ∨
    (convertPdfToImageSimple env input s).1 = .hang := by
  by_cases hw : env.windowExists = true
  · by_cases hg : s.globalLib = true
    · exact .inr (.inl ⟨s, by simp [convertPdfToImageSimple, hw, hg]⟩)
    · cases hsc : env.script s.injectCount with
      | loads b =>
        cases b with
        | true =>
          exact .inr (.inl ⟨{ s with globalLib := true, injectCount := s.injectCount + 1 },
            by simp [convertPdfToImageSimple, hw, hg, hsc]⟩)
        | false =>
          exact .inr (.inr (by simp [convertPdfToImageSimple, hw, hg, hsc]))
      | fails =>
        exact .inl ⟨"Failed to load PDF.js library",
          by simp [convertPdfToImageSimple, hw, hg, hsc]⟩
  · exact .inl ⟨"Window is not available", by simp [convertPdfToImageSimple, hw]⟩

/-- Claim C1: for every conversion call through either entry point and
every collaborator outcome, any returned PdfConversionResult satisfies
exactly one of the success shape (non-empty imageUrl, file present,
error absent) and the failure shape (error present, imageUrl empty,
file absent) — never both and never neither. -/
theorem claim1_result_invariant (env : Env) (input : FileInput) (s : GState)
    (r : PdfConversionResult) :
    ((convertPdfToImage env input s).1 = .ret r →
      Xor' (isSuccessResult r) (isFailureResult r)) ∧
    ((convertPdfToImageSimple env input s).1 = .ret r →
      Xor' (isSuccessResult r) (isFailureResult r)) := by
  constructor
  · intro h
    rcases convertPdfToImage_outcome env input s with ⟨m, hm⟩ | ⟨f, _, hp⟩ | hh
    · injection h.symm.trans hm with hr
      subst hr
      exact xor_mkFailure m
    · injection h.symm.trans hp with hr
      subst hr
      rcases convertPipeline_cases env f with ⟨m, hm⟩ | hs
      · rw [hm]; exact xor_mkFailure m
      · rw [hs]; exact xor_mkSuccess _
    · rw [h] at hh; cases hh
  · intro h
    rcases convertPdfToImageSimple_outcome env input s with ⟨m, hm⟩ | ⟨t, ht⟩ | hh
    · injection h.symm.trans hm with hr
      subst hr
      exact xor_mkFailure m
    · injection h.symm.trans ht with hr
      subst hr
      rcases performConversion_cases env input t with ⟨m, hm⟩ | ⟨f, _, hs⟩
      · rw [hm]; exact xor_mkFailure m
      · rw [hs]; exact xor_mkSuccess _
    · rw [h] at hh; cases hh

/-- Witness for C1: the invariant holds at a concrete successful
resilient conversion. -/
theorem claim1_witness :
    Xor' (isSuccessResult (mkSuccess "sample.png"))
      (isFailureResult (mkSuccess "sample.png")) :=
  (claim1_result_invariant happyEnv (.file samplePdf) initState
    (mkSuccess "sample.png")).1 (by decide)

/-- Claim C2 (amended): no fault ever escapes an entry point as an
uncaught exception or rejected promise — every call either returns a
PdfConversionResult value or suspends indefinitely.  (Suspension does
occur: see the counterexample to the claim as stated.) -/
theorem claim2_no_fault_escape (env : Env) (input : FileInput) (s : GState) :
    ((∃ r, (convertPdfToImage env input s).1 = .ret r) ∨
      (convertPdfToImage env input s).1 = .hang) ∧
    ((∃ r, (convertPdfToImageSimple env input s).1 = .ret r) ∨
      (convertPdfToImageSimple env input s).1 = .hang) := by
  constructor
  · rcases convertPdfToImage_outcome env input s with ⟨m, hm⟩ | ⟨f, _, hp⟩ | hh
    · exact .inl ⟨_, hm⟩
    · exact .inl ⟨_, hp⟩
    · exact .inr hh
  · rcases convertPdfToImageSimple_outcome env input s with ⟨m, hm⟩ | ⟨t, ht⟩ | hh
    · exact .inl ⟨_, hm⟩
    · exact .inl ⟨_, ht⟩
    · exact .inr hh

/-- Counterexample to C2 as stated: when the CDN script load event
fires without the script installing the global binding, the resilient
entry point returns no ConversionResult at all — the call suspends
indefinitely (its load handler faults and nothing ever settles the
awaited promise). -/
theorem claim2_counterexample :
    ¬ ∃ r, (convertPdfToImage ghostScriptEnv (.file samplePdf) initState).1
        = Outcome.ret r := by
  have hh : (convertPdfToImage ghostScriptEnv (.file samplePdf) initState).1
      = Outcome.hang := by decide
  rintro ⟨r, h⟩
  rw [hh] at h
  cases h

/-- Claim C8: on success the output file name is the source name with
one trailing ".pdf" extension stripped case-insensitively and ".png"
appended, through both the resilient pipeline and performConversion. -/
theorem claim8_output_naming (env : Env) (f : JsFile) (s : GState)
    (r : PdfConversionResult) :
    ((convertPdfToImage env (.file f) s).1 = .ret r → r.error = none →
      r.file.map JsFile.name = some (stripPdfSuffix f.name ++ ".png")) ∧
    ((performConversion env (.file f) s).error = none →
      (performConversion env (.file f) s).file.map JsFile.name
        = some (stripPdfSuffix f.name ++ ".png")) := by
  constructor
  · intro h he
    rcases convertPdfToImage_outcome env (.file f) s with ⟨m, hm⟩ | ⟨g, hg, hp⟩ | hh
    · injection h.symm.trans hm with hr
      subst hr
      simp [mkFailure] at he
    · injection hg with hfg
      subst hfg
      injection h.symm.trans hp with hr
      subst hr
      rcases convertPipeline_cases env f with ⟨m, hm⟩ | hs
      · rw [hm] at he
        simp [mkFailure] at he
      · rw [hs]
        simp [mkSuccess]
    · rw [h] at hh; cases hh
  · intro he
    rcases performConversion_cases env (.file f) s with ⟨m, hm⟩ | ⟨g, hg, hs⟩
    · rw [hm] at he
      simp [mkFailure] at he
    · injection hg with hfg
      subst hfg
      rw [hs]
      simp [mkSuccess]

/-- Witness for C8: an input named "report.PDF" converts successfully
and the output file is named "report.png". -/
theorem claim8_witness :
    (convertPdfToImage happyEnv (.file reportPdf) initState).1
        = Outcome.ret (mkSuccess "report.png") ∧
    (mkSuccess "report.png").file.map JsFile.name = some "report.png" := by
  have h := (claim8_output_naming happyEnv reportPdf initState
      (mkSuccess "report.png")).1 (by decide) rfl
  exact ⟨by decide, by rw [h]; decide⟩

/-- Claim C3 (amended): the resilient entry point returns the
wrong-type failure for any input that is neither declared
application/pdf nor named with a ".pdf" suffix, attempting no engine
acquisition: no event is emitted and the state is untouched.  The
simplified entry point performs no such classification (see the
counterexample). -/
theorem claim3_type_check (env : Env) (f : JsFile) (s : GState)
    (h : isPdfFile f = false) :
    convertPdfToImage env (.file f) s
      = (.ret (mkFailure "File is not a PDF"), s, []) := by
  simp [convertPdfToImage, h]

/-- Witness for C3 at a concrete text file. -/
theorem claim3_witness :
    isPdfFile txtFile = false ∧
    convertPdfToImage happyEnv (.file txtFile) initState
      = (.ret (mkFailure "File is not a PDF"), initState, []) :=
  ⟨by decide, claim3_type_check happyEnv txtFile initState (by decide)⟩

/-- Counterexample to C3 as stated: the simplified entry point runs no
PDF classification — on a non-PDF input it appends a CDN script (an
engine acquisition) and returns a parse failure, not the wrong-type
failure. -/
theorem claim3_counterexample :
    isPdfFile txtFile = false ∧
    convertPdfToImageSimple parseFailEnv (.file txtFile) initState
      = (.ret (mkFailure "Conversion error: parse error"),
         { pdfjsLibCache := none, loadPromise := none, isLoading := false
           globalLib := true, injectCount := 1 },
         [.inject cloudflarePdfUrl]) :=
  ⟨by decide, by decide⟩

/-- Claim C4 (amended): the resilient entry point attempts CDN script
injection as its first engine-acquisition strategy; the module-import
strategy (entered through loadPdfJs) runs only if that injection has
failed. -/
theorem claim4_strategy_order (env : Env) (f : JsFile) (s : GState)
    (hp : isPdfFile f = true) (hw : env.windowExists = true)
    (hg : s.globalLib = false) :
    (∃ tr, (convertPdfToImage env (.file f) s).2.2
        = Event.inject jsdelivrPdfUrl :: tr) ∧
    (Event.importMod ∈ (convertPdfToImage env (.file f) s).2.2 →
      env.script s.injectCount = .fails) := by
  cases hsc : env.script s.injectCount with
  | loads b =>
    cases b with
    | true =>
      refine ⟨⟨[], ?_⟩, ?_⟩
      · simp [convertPdfToImage, hp, hw, hg, hsc]
      · intro hm
        simp [convertPdfToImage, hp, hw, hg, hsc] at hm
    | false =>
      refine ⟨⟨[], ?_⟩, ?_⟩
      · simp [convertPdfToImage, hp, hw, hg, hsc]
      · intro hm
        simp [convertPdfToImage, hp, hw, hg, hsc] at hm
  | fails =>
    rcases hld : loadPdfJs env
        { s with globalLib := false, injectCount := s.injectCount + 1 }
      with ⟨res, s2, ev⟩
    refine ⟨⟨?_, ?_⟩, fun _ => rfl⟩
    case refine_1 => exact ev
    case refine_2 =>
      cases res <;> simp [convertPdfToImage, hp, hw, hg, hsc, hld]

/-- Witness for C4: with every CDN script down and the module viable,
the resilient call starts with the CDN injection and only then falls
back to the module import. -/
theorem claim4_witness :
    (∃ tr, (convertPdfToImage cdnDownEnv (.file samplePdf) initState).2.2
        = Event.inject jsdelivrPdfUrl :: tr) ∧
    (Event.importMod ∈ (convertPdfToImage cdnDownEnv (.file samplePdf) initState).2.2 →
      cdnDownEnv.script initState.injectCount = .fails) :=
  claim4_strategy_order cdnDownEnv samplePdf initState (by decide) rfl rfl

/-- Counterexample to C4 as stated: with every strategy viable, the
resilient entry point acquires the engine via CDN script injection as
its first and only executed strategy — the module import was never
attempted, so the CDN injection did not wait for a module-import
failure. -/
theorem claim4_counterexample :
    (convertPdfToImage happyEnv (.file samplePdf) initState).2.2
      = [Event.inject jsdelivrPdfUrl] ∧
    happyEnv.moduleImport = Except.ok () :=
  ⟨by decide, rfl⟩

/-- Claim C5 (amended): the primary CDN path of the resilient entry
point has no in-flight guard, so two concurrent calls issued before
the engine is loaded each inject their own script (two injections);
only the module loader memoizes: a loadPdfJs caller that finds a
recorded loadPromise attaches to that same outcome, runs no strategy,
and leaves the state untouched. -/
theorem claim5_single_acquisition (env : Env) (f : JsFile) (s t : GState)
    (res : LoadRes)
    (hp : isPdfFile f = true) (hw : env.windowExists = true)
    (hg : s.globalLib = false)
    (hc : t.pdfjsLibCache = none) (hl : t.loadPromise = some res) :
    injections (twoConcurrentConverts env f s).2 = 2 ∧
    loadPdfJs env t = (res, t, []) := by
  constructor
  · have h2 : (twoConcurrentConverts env f s).2
        = [Event.inject jsdelivrPdfUrl, Event.inject jsdelivrPdfUrl] := by
      simp [twoConcurrentConverts, convertFirstPhase, hp, hw, hg]
    rw [h2]
    decide
  · simp [loadPdfJs, hc, hl]

/-- Witness for C5: two concurrent fresh calls inject twice even in the
fully cooperative environment, and a loadPdfJs call against the
poisoned loader state attaches to the recorded rejection. -/
theorem claim5_witness :
    injections (twoConcurrentConverts happyEnv samplePdf initState).2 = 2 ∧
    loadPdfJs happyEnv poisonedState
      = (.rejected "script load error", poisonedState, []) :=
  claim5_single_acquisition happyEnv samplePdf initState poisonedState
    (.rejected "script load error") (by decide) rfl rfl rfl rfl

/-- Counterexample to C5 as stated: two conversion calls issued
concurrently before the engine is loaded append one CDN script each —
two script injections execute, not exactly one acquisition sequence. -/
theorem claim5_counterexample :
    (twoConcurrentConverts happyEnv samplePdf initState).2
      = [Event.inject jsdelivrPdfUrl, Event.inject jsdelivrPdfUrl] ∧
    injections (twoConcurrentConverts happyEnv samplePdf initState).2 = 2 :=
  ⟨by decide, by decide⟩

/-- Claim C6 (amended): when every strategy fails the acquisition
rejects, but the loader does not reset its in-progress state:
loadPromise keeps the rejection and isLoading stays true, so a
subsequent loadPdfJs call returns the same rejected outcome without
re-running any strategy (permanent poisoning). -/
theorem claim6_no_retry_after_failure (env : Env) (s : GState) (e : String)
    (hc : s.pdfjsLibCache = none) (hl : s.loadPromise = none)
    (hm : env.moduleImport = .error e) (hw : env.windowExists = true)
    (hsc : env.script s.injectCount = .fails) :
    (loadPdfJs env s).1 = .rejected "script load error" ∧
    (loadPdfJs env s).2.2 = [Event.importMod, Event.inject jsdelivrPdfUrl] ∧
    ((loadPdfJs env s).2.1).loadPromise = some (.rejected "script load error") ∧
    ((loadPdfJs env s).2.1).isLoading = true ∧
    loadPdfJs env (loadPdfJs env s).2.1
      = (.rejected "script load error", (loadPdfJs env s).2.1, []) := by
  have h1 : loadPdfJs env s
      = (.rejected "script load error",
         { s with isLoading := true, injectCount := s.injectCount + 1,
                  loadPromise := some (.rejected "script load error") },
         [Event.importMod, Event.inject jsdelivrPdfUrl]) := by
    simp [loadPdfJs, hc, hl, hm, hw, hsc]
  refine ⟨by rw [h1], by rw [h1], by rw [h1], by rw [h1], ?_⟩
  rw [h1]
  simp [loadPdfJs, hc]

/-- Witness for C6 at the concrete all-strategies-fail environment. -/
theorem claim6_witness :
    (loadPdfJs allAcqFailEnv initState).1 = .rejected "script load error" ∧
    (loadPdfJs allAcqFailEnv initState).2.2
      = [Event.importMod, Event.inject jsdelivrPdfUrl] ∧
    ((loadPdfJs allAcqFailEnv initState).2.1).loadPromise
      = some (.rejected "script load error") ∧
    ((loadPdfJs allAcqFailEnv initState).2.1).isLoading = true ∧
    loadPdfJs allAcqFailEnv (loadPdfJs allAcqFailEnv initState).2.1
      = (.rejected "script load error", (loadPdfJs allAcqFailEnv initState).2.1, []) :=
  claim6_no_retry_after_failure allAcqFailEnv initState "import failed"
    rfl rfl rfl rfl rfl

/-- Counterexample to C6 as stated: after an acquisition in which every
strategy failed, a subsequent loadPdfJs call does not re-run the
strategy chain from strategy 1 — it emits no acquisition events and
returns the earlier rejected outcome. -/
theorem claim6_counterexample :
    (loadPdfJs allAcqFailEnv initState).2.1 = poisonedState ∧
    loadPdfJs allAcqFailEnv poisonedState
      = (.rejected "script load error", poisonedState, []) :=
  ⟨by decide, by decide⟩

/-- Claim C7 (amended): at-most-once engine acquisition across two
sequential conversions holds when the first call acquires through a
successful CDN injection: that call injects exactly once, the script
installs the global binding, and the second call reuses it, running no
acquisition strategy at all.  (When the engine was instead cached via
the module import, the second call re-attempts a CDN injection: see
the counterexample.) -/
theorem claim7_idempotent_acquisition (env : Env) (f : JsFile) (s : GState)
    (hp : isPdfFile f = true) (hw : env.windowExists = true)
    (hg : s.globalLib = false) (hsc : env.script s.injectCount = .loads true) :
    (convertPdfToImage env (.file f) s).2.2 = [Event.inject jsdelivrPdfUrl] ∧
    ((convertPdfToImage env (.file f) s).2.1).globalLib = true ∧
    (convertPdfToImage env (.file f) (convertPdfToImage env (.file f) s).2.1).2.2
      = [] := by
  have h1 : convertPdfToImage env (.file f) s
      = (.ret (convertPipeline env f),
         { s with globalLib := true, injectCount := s.injectCount + 1 },
         [Event.inject jsdelivrPdfUrl]) := by
    simp [convertPdfToImage, hp, hw, hg, hsc]
  refine ⟨by rw [h1], by rw [h1], ?_⟩
  rw [h1]
  simp [convertPdfToImage, hp, hw]

/-- Witness for C7 in the fully cooperative environment. -/
theorem claim7_witness :
    (convertPdfToImage happyEnv (.file samplePdf) initState).2.2
      = [Event.inject jsdelivrPdfUrl] ∧
    ((convertPdfToImage happyEnv (.file samplePdf) initState).2.1).globalLib = true ∧
    (convertPdfToImage happyEnv (.file samplePdf)
        (convertPdfToImage happyEnv (.file samplePdf) initState).2.1).2.2 = [] :=
  claim7_idempotent_acquisition happyEnv samplePdf initState (by decide) rfl rfl rfl

/-- Counterexample to C7 as stated: with the CDN down and the
module-import strategy viable, two sequential conversions of the same
valid PDF both succeed, yet two script injections occur — the second
call re-runs the CDN strategy before hitting the module cache. -/
theorem claim7_counterexample :
    (convertPdfToImage cdnDownEnv (.file samplePdf) initState).1
      = Outcome.ret (mkSuccess "sample.png") ∧
    (convertPdfToImage cdnDownEnv (.file samplePdf)
        (convertPdfToImage cdnDownEnv (.file samplePdf) initState).2.1).1
      = Outcome.ret (mkSuccess "sample.png") ∧
    (convertPdfToImage cdnDownEnv (.file samplePdf) initState).2.2
      = [Event.inject jsdelivrPdfUrl, Event.importMod] ∧
    (convertPdfToImage cdnDownEnv (.file samplePdf)
        (convertPdfToImage cdnDownEnv (.file samplePdf) initState).2.1).2.2
      = [Event.inject jsdelivrPdfUrl] ∧
    injections ((convertPdfToImage cdnDownEnv (.file samplePdf) initState).2.2
      ++ (convertPdfToImage cdnDownEnv (.file samplePdf)
          (convertPdfToImage cdnDownEnv (.file samplePdf) initState).2.1).2.2) = 2 :=
  ⟨by decide, by decide, by decide, by decide, by decide⟩

/-- Claim C9: in the script-injection fallback of loadPdfJs, a load
event that fires while the global engine binding is absent settles
nothing — the acquisition promise records a hung state, and the
resilient conversion call that reaches this path suspends indefinitely
instead of returning a failure result. -/
theorem claim9_hang_on_missing_global (env : Env) (f : JsFile) (s : GState)
    (e : String)
    (hw : env.windowExists = true) (hm : env.moduleImport = .error e)
    (h0 : env.script s.injectCount = .fails)
    (h1 : env.script (s.injectCount + 1) = .loads false)
    (hc : s.pdfjsLibCache = none) (hl : s.loadPromise = none)
    (hg : s.globalLib = false) (hp : isPdfFile f = true) :
    (loadPdfJs env { s with injectCount := s.injectCount + 1 }).1 = .hung ∧
    ((loadPdfJs env { s with injectCount := s.injectCount + 1 }).2.1).loadPromise
      = some .hung ∧
    (convertPdfToImage env (.file f) s).1 = .hang := by
  have hrec : ({ s with injectCount := s.injectCount + 1 } : GState)
      = { s with globalLib := false, injectCount := s.injectCount + 1 } := by
    rw [hg]
  have h2 : loadPdfJs env { s with globalLib := false, injectCount := s.injectCount + 1 }
      = (.hung,
         { s with globalLib := false, isLoading := true,
                  injectCount := s.injectCount + 1 + 1, loadPromise := some .hung },
         [Event.importMod, Event.inject jsdelivrPdfUrl]) := by
    simp [loadPdfJs, hc, hl, hm, hw, h1]
  refine ⟨by rw [hrec, h2], by rw [hrec, h2], ?_⟩
  simp [convertPdfToImage, hp, hw, hg, h0, h2]

/-- Witness for C9 at the concrete hang environment. -/
theorem claim9_witness :
    (loadPdfJs hangEnv { initState with injectCount := initState.injectCount + 1 }).1
      = .hung ∧
    ((loadPdfJs hangEnv
        { initState with injectCount := initState.injectCount + 1 }).2.1).loadPromise
      = some .hung ∧
    (convertPdfToImage hangEnv (.file samplePdf) initState).1 = .hang :=
  claim9_hang_on_missing_global hangEnv samplePdf initState "import failed"
    rfl rfl (by decide) (by decide) rfl rfl rfl (by decide)

/-- Claim C10: output-name stripping removes at most one trailing
".pdf" suffix — a source named "a.pdf.pdf" produces "a.pdf.png", and a
source named "doc" accepted via its media type produces "doc.png". -/
theorem claim10_single_strip :
    (convertPdfToImage happyEnv
        (.file { name := "a.pdf.pdf", type := "application/pdf" }) initState).1
      = Outcome.ret (mkSuccess "a.pdf.png") ∧
    (convertPdfToImage happyEnv
        (.file { name := "doc", type := "application/pdf" }) initState).1
      = Outcome.ret (mkSuccess "doc.png") :=
  ⟨by decide, by decide⟩

end Pdf2Img
